import Mathlib

/-!
Verification of the moderngl host-side resource wrappers (`buffer.py`,
`texture_array.py`): the shared resource lifecycle protocol (construction,
release, garbage-collection dispatch, equality/hashing) and the Buffer
data-moving helpers, embedded shallowly in Lean.

The wrapper classes forward every data-moving call to an opaque driver
handle (`self.mglo`, an object of the C extension `moderngl.mgl`, which is
not part of the Python sources).  The driver side is therefore modelled
from the specification; every such definition carries a doc comment
starting with "Modelled from the spec".  Everything on the wrapper side is
translated directly from the Python sources.
-/

/-- A byte string (Python `bytes` / `bytearray`), one `Nat` per byte. -/
abbrev Bytes := List Nat

/-- Python exceptions that the embedded code can surface. -/
inductive PyErr
  | typeError
  | attributeError (msg : String)
  | glError (msg : String)
deriving DecidableEq, Repr

/-- The state of the value stored in a wrapper's `mglo` slot: Python `None`
(assigned by the failing constructor), the `InvalidObject` sentinel that a
released driver handle turns into, or a live driver handle carrying its
OpenGL object name and the byte store of the underlying GPU object. -/
inductive MglKind
  | noneV
  | invalid
  | handle (glo : Nat) (store : Bytes)
deriving DecidableEq, Repr

/-- A Python object held in the `mglo` slot: an object identity (`id()`)
together with its current kind.  The driver releases a handle in place, so
the identity survives release while the kind changes to the sentinel. -/
structure MglObj where
  oid : Nat
  kind : MglKind
deriving DecidableEq, Repr

/-- The check `isinstance(m, InvalidObject)`. -/
def MglObj.isInvalidObject (m : MglObj) : Bool :=
  match m.kind with
  | .invalid => true
  | _ => false

/-- Python `is` between two `mglo` slot values: object-identity comparison. -/
def mglIs (a b : MglObj) : Bool :=
  a.oid == b.oid

/-- An argument value passed through to a driver entry point. -/
inductive PyArg
  | int (i : Int)
  | bool (b : Bool)
  | bytes (bs : Bytes)
  | intTuple (l : List Int)
  | mgl (m : MglObj)
  | noneArg
deriving DecidableEq, Repr

/-- A call issued to the driver: either the destruction of the object named
`glo`, or a forwarded data-moving entry point with its arguments. -/
inductive DriverCall
  | release (glo : Nat)
  | op (glo : Nat) (method : String) (args : List PyArg)
deriving DecidableEq, Repr

/-- The owning context interface consumed by the wrappers: a `gc_mode`
string and the append-only `objects` deferred-release queue. -/
structure Context where
  gc_mode : String
  objects : List MglObj
deriving DecidableEq, Repr

/-- The state of a wrapper's `ctx` slot.  With `__slots__`, the attribute
can be missing entirely (`hasattr` false), assigned Python `None` (as the
failing constructor does), or assigned an owning context. -/
inductive CtxSlot
  | unassigned
  | noneVal
  | ctx (c : Context)
deriving DecidableEq, Repr

/-- The state of a `Buffer` instance: its own object identity (`id(self)`)
plus the slots declared in `__slots__` (`extra` kept abstract). -/
structure Buffer where
  pyid : Nat
  mglo : MglObj
  _size : Option Nat
  _dynamic : Option Bool
  _glo : Option Nat
  ctx : CtxSlot
  extra : Option Nat
deriving DecidableEq, Repr

/-- The state of a `TextureArray` instance: object identity plus the slots
declared in `__slots__`. -/
structure TextureArray where
  pyid : Nat
  mglo : MglObj
  _size : Option (Nat × Nat × Nat)
  _components : Option Nat
  _samples : Option Nat
  _dtype : Option String
  _depth : Option Bool
  _glo : Option Nat
  ctx : CtxSlot
  extra : Option Nat
deriving DecidableEq, Repr

/-- Modelled from the spec: the `release()` method of the value in the
`mglo` slot.  A live driver handle instructs the driver to destroy the
underlying object and transitions in place to the invalid sentinel; the
sentinel absorbs repeated release calls without error; Python `None` has
no `release` attribute. -/
def MglObj.releasePrim (m : MglObj) : Except PyErr (List DriverCall × MglObj) :=
  match m.kind with
  | .handle glo _ => .ok ([.release glo], { m with kind := .invalid })
  | .invalid => .ok ([], m)
  | .noneV => .error (.attributeError "NoneType object has no attribute release")

/-- Modelled from the spec: a generic data-moving driver entry point.  On a
live handle the call is forwarded to the driver and recorded; on the
invalid sentinel every data-moving call fails predictably; on Python
`None` the attribute lookup fails. -/
def MglObj.opPrim (m : MglObj) (method : String) (args : List PyArg) :
    Except PyErr (List DriverCall) :=
  match m.kind with
  | .handle glo _ => .ok [.op glo method args]
  | .invalid => .error (.glError method)
  | .noneV => .error (.attributeError "NoneType")

/-- Embeds `Buffer.release`: releases the driver object unless the handle is
already the `InvalidObject` sentinel. -/
def Buffer.release (self : Buffer) : Except PyErr (List DriverCall × Buffer) :=
  if !self.mglo.isInvalidObject then do
    let (calls, m) ← self.mglo.releasePrim
    .ok (calls, { self with mglo := m })
  else
    .ok ([], self)

/-- Embeds `TextureArray.release`: releases the driver object unless the handle is
already the `InvalidObject` sentinel. -/
def TextureArray.release (self : TextureArray) :
    Except PyErr (List DriverCall × TextureArray) :=
  if !self.mglo.isInvalidObject then do
    let (calls, m) ← self.mglo.releasePrim
    .ok (calls, { self with mglo := m })
  else
    .ok ([], self)

/-- Embeds `Buffer.__del__`: returns the driver calls issued, the wrapper state
afterwards, and the (possibly updated) content of the `ctx` slot.  An
`.error` result is an exception raised inside the teardown body (which the
Python runtime reports and suppresses rather than propagating). -/
def Buffer.del (self : Buffer) : Except PyErr (List DriverCall × Buffer × CtxSlot) :=
  match self.ctx with
  | .unassigned => .ok ([], self, .unassigned)
  | .noneVal => .error (.attributeError "NoneType object has no attribute gc_mode")
  | .ctx c =>
    if c.gc_mode = "auto" then do
      let (calls, b) ← self.release
      .ok (calls, b, .ctx c)
    else if c.gc_mode = "context_gc" then
      .ok ([], self, .ctx { c with objects := c.objects ++ [self.mglo] })
    else
      .ok ([], self, .ctx c)

/-- Embeds `TextureArray.__del__`: same teardown dispatch as `Buffer.__del__`. -/
def TextureArray.del (self : TextureArray) :
    Except PyErr (List DriverCall × TextureArray × CtxSlot) :=
  match self.ctx with
  | .unassigned => .ok ([], self, .unassigned)
  | .noneVal => .error (.attributeError "NoneType object has no attribute gc_mode")
  | .ctx c =>
    if c.gc_mode = "auto" then do
      let (calls, t) ← self.release
      .ok (calls, t, .ctx c)
    else if c.gc_mode = "context_gc" then
      .ok ([], self, .ctx { c with objects := c.objects ++ [self.mglo] })
    else
      .ok ([], self, .ctx c)

/-- Embeds the `Buffer.__init__` body: assigns every slot (all to `None`), then raises
`TypeError` unconditionally.  The result pairs the raised error with the
abandoned, partially constructed instance (identified by `pyid`). -/
def Buffer.init (pyid : Nat) : PyErr × Buffer :=
  (.typeError,
   { pyid := pyid
     mglo := { oid := 0, kind := .noneV }
     _size := none
     _dynamic := none
     _glo := none
     ctx := .noneVal
     extra := none })

/-- Embeds the `TextureArray.__init__` body: assigns every slot, then raises
`TypeError` unconditionally. -/
def TextureArray.init (pyid : Nat) : PyErr × TextureArray :=
  (.typeError,
   { pyid := pyid
     mglo := { oid := 0, kind := .noneV }
     _size := none
     _components := none
     _samples := none
     _dtype := none
     _depth := none
     _glo := none
     ctx := .noneVal
     extra := none })

/-- Calling `Buffer(...)`: with no arguments the `__init__` body runs and
raises; with any arguments the call fails with `TypeError` before the body
runs (`__init__` accepts no arguments). -/
def Buffer.initArgs (pyid : Nat) (args : List Nat) : PyErr × Option Buffer :=
  match args with
  | [] => ((Buffer.init pyid).1, some (Buffer.init pyid).2)
  | _ :: _ => (.typeError, none)

/-- Calling `TextureArray(...)`: with no arguments the `__init__` body runs
and raises; with any arguments the call fails with `TypeError` before the
body runs. -/
def TextureArray.initArgs (pyid : Nat) (args : List Nat) :
    PyErr × Option TextureArray :=
  match args with
  | [] => ((TextureArray.init pyid).1, some (TextureArray.init pyid).2)
  | _ :: _ => (.typeError, none)

/-- A wrapper instance of either concrete resource kind, for stating
cross-kind comparisons. -/
inductive Wrapper
  | buf (b : Buffer)
  | tex (t : TextureArray)
deriving DecidableEq, Repr

/-- Embeds `Buffer.__eq__`: `type(self) is type(other) and self.mglo is other.mglo`. -/
def Buffer.eqPy (self : Buffer) : Wrapper → Bool
  | .buf o => mglIs self.mglo o.mglo
  | _ => false

/-- Embeds `TextureArray.__eq__`: `type(self) is type(other) and self.mglo is other.mglo`. -/
def TextureArray.eqPy (self : TextureArray) : Wrapper → Bool
  | .tex o => mglIs self.mglo o.mglo
  | _ => false

/-- Python `a == b` on two wrapper instances, dispatching to the concrete
kind's `__eq__`. -/
def Wrapper.eqPy : Wrapper → Wrapper → Bool
  | .buf a, o => a.eqPy o
  | .tex a, o => a.eqPy o

/-- Embeds `Buffer.__hash__`: `id(self)`. -/
def Buffer.hashPy (self : Buffer) : Nat := self.pyid

/-- Embeds `TextureArray.__hash__`: `id(self)`. -/
def TextureArray.hashPy (self : TextureArray) : Nat := self.pyid

/-- Write `data` into `store` at byte `offset` (in-range callers only). -/
def writeAt (store data : Bytes) (offset : Nat) : Bytes :=
  store.take offset ++ data ++ store.drop (offset + data.length)

/-- Read `size` bytes of `store` starting at byte `offset`. -/
def readAt (store : Bytes) (offset size : Nat) : Bytes :=
  (store.drop offset).take size

/-- Write `count` consecutive equal chunks of `data` (each of `chunkSize`
bytes) at offsets `start`, `start + step`, `start + 2*step`, .... -/
def writeChunksCore (store data : Bytes) (chunkSize start step : Nat) :
    Nat → Bytes
  | 0 => store
  | count + 1 =>
    writeChunksCore (writeAt store (data.take chunkSize) start)
      (data.drop chunkSize) chunkSize (start + step) step count

/-- Read and concatenate `count` chunks of `chunkSize` bytes at offsets
`start`, `start + step`, .... -/
def readChunksCore (store : Bytes) (chunkSize start step : Nat) :
    Nat → Bytes
  | 0 => []
  | count + 1 =>
    readAt store start chunkSize ++
      readChunksCore store chunkSize (start + step) step count

/-- Modelled from the spec: the driver `write(data, offset)` primitive.
Uploads `data` at `offset`; fails if the range exceeds the buffer size,
and fails on the invalid sentinel and on `None`. -/
def MglObj.writePrim (m : MglObj) (data : Bytes) (offset : Int) :
    Except PyErr MglObj :=
  match m.kind with
  | .handle glo store =>
    if 0 ≤ offset ∧ offset.toNat + data.length ≤ store.length then
      .ok { m with kind := .handle glo (writeAt store data offset.toNat) }
    else
      .error (.glError "write out of range")
  | .invalid => .error (.glError "write on released object")
  | .noneV => .error (.attributeError "NoneType")

/-- Modelled from the spec: the driver `read` entry point.  It takes
exactly the two arguments `(size, offset)`; a call with any other argument
shape fails with `TypeError`.  `size = -1` means all remaining bytes from
`offset` to the end. -/
def MglObj.readArgs (m : MglObj) (args : List PyArg) : Except PyErr Bytes :=
  match args with
  | [.int size, .int offset] =>
    match m.kind with
    | .handle _ store =>
      if 0 ≤ offset ∧ offset.toNat ≤ store.length then
        let sz := if size = -1 then store.length - offset.toNat else size.toNat
        if offset.toNat + sz ≤ store.length then
          .ok (readAt store offset.toNat sz)
        else
          .error (.glError "read out of range")
      else
        .error (.glError "read out of range")
    | .invalid => .error (.glError "read on released object")
    | .noneV => .error (.attributeError "NoneType")
  | _ => .error .typeError

/-- Modelled from the spec: the driver `write_chunks(data, start, step,
count)` primitive.  Splits `data` into `count` equal pieces and writes
piece `i` at offset `start + i*step`; `count` must divide the data length
and every piece must land inside the buffer. -/
def MglObj.writeChunksPrim (m : MglObj) (data : Bytes)
    (start step count : Nat) : Except PyErr MglObj :=
  match m.kind with
  | .handle glo store =>
    if count ∣ data.length ∧
        (count = 0 ∨
          start + (count - 1) * step + data.length / count ≤ store.length) then
      .ok { m with
        kind := .handle glo
          (writeChunksCore store data (data.length / count) start step count) }
    else
      .error (.glError "write_chunks out of range")
  | .invalid => .error (.glError "write_chunks on released object")
  | .noneV => .error (.attributeError "NoneType")

/-- Modelled from the spec: the driver `read_chunks(chunk_size, start,
step, count)` primitive.  Reads and concatenates `count` chunks of
`chunk_size` bytes at offsets `start + i*step`. -/
def MglObj.readChunksPrim (m : MglObj) (chunkSize start step count : Nat) :
    Except PyErr Bytes :=
  match m.kind with
  | .handle _ store =>
    if count = 0 ∨ start + (count - 1) * step + chunkSize ≤ store.length then
      .ok (readChunksCore store chunkSize start step count)
    else
      .error (.glError "read_chunks out of range")
  | .invalid => .error (.glError "read_chunks on released object")
  | .noneV => .error (.attributeError "NoneType")

/-- Embeds `Buffer.write`: forwards to `self.mglo.write(data, offset)`. -/
def Buffer.write (self : Buffer) (data : Bytes) (offset : Int) :
    Except PyErr Buffer := do
  let m ← self.mglo.writePrim data offset
  .ok { self with mglo := m }

/-- Embeds `Buffer.write_chunks`: forwards to
`self.mglo.write_chunks(data, start, step, count)`. -/
def Buffer.write_chunks (self : Buffer) (data : Bytes)
    (start step count : Nat) : Except PyErr Buffer := do
  let m ← self.mglo.writeChunksPrim data start step count
  .ok { self with mglo := m }

/-- Embeds `Buffer.read`: forwards to `self.mglo.read(size, offset)`. -/
def Buffer.read (self : Buffer) (size offset : Int) : Except PyErr Bytes :=
  self.mglo.readArgs [.int size, .int offset]

/-- Embeds `Buffer.read_into`: forwards to
`self.mglo.read_into(buffer, size, offset, write_offset)`. -/
def Buffer.read_into (self : Buffer) (buffer : Bytes)
    (size offset write_offset : Int) : Except PyErr (List DriverCall) :=
  self.mglo.opPrim "read_into"
    [.bytes buffer, .int size, .int offset, .int write_offset]

/-- Embeds `Buffer.read_chunks`: forwards to
`self.mglo.read_chunks(chunk_size, start, step, count)`. -/
def Buffer.read_chunks (self : Buffer) (chunk_size start step count : Nat) :
    Except PyErr Bytes :=
  self.mglo.readChunksPrim chunk_size start step count

/-- Embeds `Buffer.read_chunks_into`: the source forwards to
`self.mglo.read(buffer, chunk_size, start, step, count, write_offset)` —
the plain `read` entry point, with six arguments. -/
def Buffer.read_chunks_into (self : Buffer) (buffer : Bytes)
    (chunk_size start step count write_offset : Int) : Except PyErr Bytes :=
  self.mglo.readArgs
    [.bytes buffer, .int chunk_size, .int start, .int step, .int count,
     .int write_offset]

/-- Embeds `Buffer.clear`: forwards to `self.mglo.clear(size, offset, chunk)`. -/
def Buffer.clear (self : Buffer) (size offset : Int) (chunk : Option Bytes) :
    Except PyErr (List DriverCall) :=
  self.mglo.opPrim "clear"
    [.int size, .int offset,
     match chunk with | some bs => .bytes bs | none => .noneArg]

/-- Embeds `Buffer.orphan`: forwards to `self.mglo.orphan(size)`. -/
def Buffer.orphan (self : Buffer) (size : Int) : Except PyErr (List DriverCall) :=
  self.mglo.opPrim "orphan" [.int size]

/-- Embeds `Buffer.bind_to_uniform_block`: forwards to
`self.mglo.bind_to_uniform_block(binding, offset, size)`. -/
def Buffer.bind_to_uniform_block (self : Buffer) (binding offset size : Int) :
    Except PyErr (List DriverCall) :=
  self.mglo.opPrim "bind_to_uniform_block" [.int binding, .int offset, .int size]

/-- Embeds `Buffer.bind_to_storage_buffer`: forwards to
`self.mglo.bind_to_storage_buffer(binding, offset, size)`. -/
def Buffer.bind_to_storage_buffer (self : Buffer) (binding offset size : Int) :
    Except PyErr (List DriverCall) :=
  self.mglo.opPrim "bind_to_storage_buffer" [.int binding, .int offset, .int size]

/-- A value passed as the `buffer`/`data` argument of a TextureArray
method: host memory or a moderngl `Buffer`. -/
inductive TexBufArg
  | bytearray (bs : Bytes)
  | buffer (b : Buffer)
deriving DecidableEq, Repr

/-- Embeds `TextureArray.read`: forwards to `self.mglo.read(alignment)`. -/
def TextureArray.read (self : TextureArray) (alignment : Int) :
    Except PyErr (List DriverCall) :=
  self.mglo.opPrim "read" [.int alignment]

/-- Embeds `TextureArray.read_into`: replaces a `Buffer` argument by its `mglo`,
then forwards to `self.mglo.read_into(buffer, alignment, write_offset)`. -/
def TextureArray.read_into (self : TextureArray) (buffer : TexBufArg)
    (alignment write_offset : Int) : Except PyErr (List DriverCall) :=
  let bufArg : PyArg :=
    match buffer with
    | .buffer b => .mgl b.mglo
    | .bytearray bs => .bytes bs
  self.mglo.opPrim "read_into" [bufArg, .int alignment, .int write_offset]

/-- Embeds `TextureArray.write`: replaces a `Buffer` argument by its `mglo`, then
forwards to `self.mglo.write(data, viewport, alignment)`. -/
def TextureArray.write (self : TextureArray) (data : TexBufArg)
    (viewport : Option (List Int)) (alignment : Int) :
    Except PyErr (List DriverCall) :=
  let dataArg : PyArg :=
    match data with
    | .buffer b => .mgl b.mglo
    | .bytearray bs => .bytes bs
  self.mglo.opPrim "write"
    [dataArg,
     match viewport with | some v => .intTuple v | none => .noneArg,
     .int alignment]

/-- Embeds `TextureArray.build_mipmaps`: forwards to
`self.mglo.build_mipmaps(base, max_level)`. -/
def TextureArray.build_mipmaps (self : TextureArray) (base max_level : Int) :
    Except PyErr (List DriverCall) :=
  self.mglo.opPrim "build_mipmaps" [.int base, .int max_level]

/-- Embeds `TextureArray.use`: forwards to `self.mglo.use(location)`. -/
def TextureArray.use (self : TextureArray) (location : Int) :
    Except PyErr (List DriverCall) :=
  self.mglo.opPrim "use" [.int location]

/-- Embeds `TextureArray.bind_to_image`: forwards to
`self.mglo.bind(unit, read, write, level, format)`. -/
def TextureArray.bind_to_image (self : TextureArray) (unit : Int)
    (read write : Bool) (level format : Int) : Except PyErr (List DriverCall) :=
  self.mglo.opPrim "bind"
    [.int unit, .bool read, .bool write, .int level, .int format]

/-- One element of the tuple returned by `Buffer.bind`:
`(self, layout, *attribs)`. -/
inductive BindElem
  | bufSelf (b : Buffer)
  | layoutVal (l : Option String)
  | attrib (a : String)
deriving DecidableEq, Repr

/-- Embeds `Buffer.bind`: returns `(self, layout, *attribs)` and issues no driver
call. -/
def Buffer.bind (self : Buffer) (attribs : List String)
    (layout : Option String) : List DriverCall × List BindElem :=
  ([], .bufSelf self :: .layoutVal layout :: attribs.map .attrib)

/-- Embeds `Buffer.assign`: returns `(self, index)` and issues no driver call. -/
def Buffer.assign (self : Buffer) (index : Int) :
    List DriverCall × (Buffer × Int) :=
  ([], (self, index))

/-- A live 16-byte buffer owned by an "auto"-mode context, used as a
concrete test state. -/
def bufLive : Buffer :=
  { pyid := 11
    mglo := { oid := 3, kind := .handle 7 (List.replicate 16 0) }
    _size := some 16
    _dynamic := some false
    _glo := some 7
    ctx := .ctx { gc_mode := "auto", objects := [] }
    extra := none }

/-- The state `bufLive` after release: the same wrapper with its handle turned into
the invalid sentinel. -/
def bufReleased : Buffer :=
  { bufLive with mglo := { oid := 3, kind := .invalid } }

/-- A live 2x2x2 one-component texture array owned by an "auto"-mode
context, used as a concrete test state. -/
def texLive : TextureArray :=
  { pyid := 21
    mglo := { oid := 5, kind := .handle 9 (List.replicate 8 0) }
    _size := some (2, 2, 2)
    _components := some 1
    _samples := some 0
    _dtype := some "f1"
    _depth := some false
    _glo := some 9
    ctx := .ctx { gc_mode := "auto", objects := [] }
    extra := none }

/-- The state `texLive` after release. -/
def texReleased : TextureArray :=
  { texLive with mglo := { oid := 5, kind := .invalid } }

/-- A context in deferred-release mode with an empty queue. -/
def ctxDeferred : Context :=
  { gc_mode := "context_gc", objects := [] }

/-- Does an embedded call surface an error? -/
def errs {α : Type} : Except PyErr α → Bool
  | .error _ => true
  | .ok _ => false

/-- C1: for both Buffer and TextureArray, `release()` is idempotent: on a
wrapper whose handle is already the `InvalidObject` sentinel it performs
no driver call and raises no error; on a live handle it instructs the
driver to destroy the object and the handle becomes the invalid sentinel,
after which a second `release()` is an error-free no-op. -/
theorem release_idempotent (b : Buffer) (t : TextureArray) :
    (b.mglo.kind = .invalid → b.release = .ok ([], b)) ∧
    (∀ glo store, b.mglo.kind = .handle glo store →
      b.release =
        .ok ([.release glo], { b with mglo := { b.mglo with kind := .invalid } }) ∧
      Buffer.release { b with mglo := { b.mglo with kind := .invalid } } =
        .ok ([], { b with mglo := { b.mglo with kind := .invalid } })) ∧
    (t.mglo.kind = .invalid → t.release = .ok ([], t)) ∧
    (∀ glo store, t.mglo.kind = .handle glo store →
      t.release =
        .ok ([.release glo], { t with mglo := { t.mglo with kind := .invalid } }) ∧
      TextureArray.release { t with mglo := { t.mglo with kind := .invalid } } =
        .ok ([], { t with mglo := { t.mglo with kind := .invalid } })) := by
  refine ⟨fun h => ?_, fun glo store h => ⟨?_, ?_⟩, fun h => ?_,
    fun glo store h => ⟨?_, ?_⟩⟩ <;>
    simp_all [Buffer.release, TextureArray.release, MglObj.isInvalidObject,
      MglObj.releasePrim] <;> rfl

/-- C1 witness: the general theorem applied to the concrete live and
released buffer and texture states. -/
theorem release_idempotent_witness :
    bufLive.release =
      .ok ([.release 7], { bufLive with mglo := { bufLive.mglo with kind := .invalid } }) ∧
    bufReleased.release = .ok ([], bufReleased) ∧
    texLive.release =
      .ok ([.release 9], { texLive with mglo := { texLive.mglo with kind := .invalid } }) ∧
    texReleased.release = .ok ([], texReleased) :=
  ⟨((release_idempotent bufLive texLive).2.1 7 (List.replicate 16 0) rfl).1,
   (release_idempotent bufReleased texReleased).1 rfl,
   ((release_idempotent bufLive texLive).2.2.2 9 (List.replicate 8 0) rfl).1,
   (release_idempotent bufReleased texReleased).2.2.1 rfl⟩

/-- C2: automatic teardown of a fully constructed wrapper dispatches on the
owning context's `gc_mode`: "auto" calls `release()` immediately;
"context_gc" issues no driver call and appends the raw handle to the
context's `objects` queue, growing it by exactly one; any other mode does
nothing. -/
theorem del_gc_dispatch (b : Buffer) (t : TextureArray) (c d : Context) :
    (b.ctx = .ctx c →
      (c.gc_mode = "auto" →
        b.del = b.release.map (fun p => (p.1, p.2, CtxSlot.ctx c))) ∧
      (c.gc_mode = "context_gc" →
        b.del = .ok ([], b, .ctx { c with objects := c.objects ++ [b.mglo] }) ∧
        (c.objects ++ [b.mglo]).length = c.objects.length + 1) ∧
      (c.gc_mode ≠ "auto" → c.gc_mode ≠ "context_gc" →
        b.del = .ok ([], b, .ctx c))) ∧
    (t.ctx = .ctx d →
      (d.gc_mode = "auto" →
        t.del = t.release.map (fun p => (p.1, p.2, CtxSlot.ctx d))) ∧
      (d.gc_mode = "context_gc" →
        t.del = .ok ([], t, .ctx { d with objects := d.objects ++ [t.mglo] }) ∧
        (d.objects ++ [t.mglo]).length = d.objects.length + 1) ∧
      (d.gc_mode ≠ "auto" → d.gc_mode ≠ "context_gc" →
        t.del = .ok ([], t, .ctx d))) := by
  constructor <;> intro hctx <;>
    refine ⟨fun hauto => ?_, fun hgc => ?_, fun h1 h2 => ?_⟩ <;>
    simp_all [Buffer.del, TextureArray.del] <;>
    cases hr : Buffer.release b <;> cases hrt : TextureArray.release t <;>
    simp_all [Except.map] <;> rfl

/-- C2 witness: the teardown dispatch at concrete states, one per mode. -/
theorem del_gc_dispatch_witness :
    bufLive.del = bufLive.release.map
      (fun p => (p.1, p.2, CtxSlot.ctx { gc_mode := "auto", objects := [] })) ∧
    Buffer.del { bufLive with ctx := .ctx ctxDeferred } =
      .ok ([], { bufLive with ctx := .ctx ctxDeferred },
        .ctx { ctxDeferred with objects := [bufLive.mglo] }) ∧
    TextureArray.del { texLive with ctx := .ctx { gc_mode := "manual", objects := [] } } =
      .ok ([], { texLive with ctx := .ctx { gc_mode := "manual", objects := [] } },
        .ctx { gc_mode := "manual", objects := [] }) :=
  ⟨((del_gc_dispatch bufLive texLive { gc_mode := "auto", objects := [] }
      { gc_mode := "auto", objects := [] }).1 rfl).1 rfl,
   (((del_gc_dispatch { bufLive with ctx := .ctx ctxDeferred } texLive ctxDeferred
      ctxDeferred).1 rfl).2.1 rfl).1,
   ((del_gc_dispatch bufLive
      { texLive with ctx := .ctx { gc_mode := "manual", objects := [] } }
      { gc_mode := "manual", objects := [] }
      { gc_mode := "manual", objects := [] }).2 rfl).2.2
      (by decide) (by decide)⟩

/-- C3: two wrapper instances compare equal exactly when they are the same
concrete resource kind and wrap the identical underlying driver handle
object (object identity); different kinds, or same kind with different
handles, compare unequal. -/
theorem wrapper_eq_iff (a b : Wrapper) :
    Wrapper.eqPy a b = true ↔
      ((∃ x y, a = .buf x ∧ b = .buf y ∧ x.mglo.oid = y.mglo.oid) ∨
       (∃ x y, a = .tex x ∧ b = .tex y ∧ x.mglo.oid = y.mglo.oid)) := by
  cases a <;> cases b <;>
    simp [Wrapper.eqPy, Buffer.eqPy, TextureArray.eqPy, mglIs]

/-- C4: every invocation of the public constructor of Buffer or of
TextureArray raises `TypeError`, for every argument list. -/
theorem init_always_raises (pyid : Nat) (args : List Nat) :
    (Buffer.initArgs pyid args).1 = PyErr.typeError ∧
    (TextureArray.initArgs pyid args).1 = PyErr.typeError := by
  cases args <;>
    simp [Buffer.initArgs, TextureArray.initArgs, Buffer.init, TextureArray.init]

/-- C5: on a wrapper whose handle is already the invalid sentinel, every
data-moving method of Buffer (`write`, `read`, `read_into`,
`write_chunks`, `read_chunks`, `clear`, `orphan`, `bind_to_uniform_block`,
`bind_to_storage_buffer`) and of TextureArray (`read`, `read_into`,
`write`, `build_mipmaps`, `use`, `bind_to_image`) surfaces an error
synchronously; `release()` alone stays safe to repeat. -/
theorem use_after_release_fails (b : Buffer) (t : TextureArray)
    (hb : b.mglo.kind = .invalid) (ht : t.mglo.kind = .invalid) :
    (∀ data offset, errs (b.write data offset) = true) ∧
    (∀ size offset, errs (b.read size offset) = true) ∧
    (∀ buffer size offset w, errs (b.read_into buffer size offset w) = true) ∧
    (∀ data start step count, errs (b.write_chunks data start step count) = true) ∧
    (∀ cs start step count, errs (b.read_chunks cs start step count) = true) ∧
    (∀ size offset chunk, errs (b.clear size offset chunk) = true) ∧
    (∀ size, errs (b.orphan size) = true) ∧
    (∀ binding offset size,
      errs (b.bind_to_uniform_block binding offset size) = true) ∧
    (∀ binding offset size,
      errs (b.bind_to_storage_buffer binding offset size) = true) ∧
    b.release = .ok ([], b) ∧
    (∀ alignment, errs (t.read alignment) = true) ∧
    (∀ buffer alignment w, errs (t.read_into buffer alignment w) = true) ∧
    (∀ data viewport alignment, errs (t.write data viewport alignment) = true) ∧
    (∀ base ml, errs (t.build_mipmaps base ml) = true) ∧
    (∀ loc, errs (t.use loc) = true) ∧
    (∀ unit r w level fmt, errs (t.bind_to_image unit r w level fmt) = true) ∧
    t.release = .ok ([], t) := by
  refine ⟨fun data offset => ?_, fun size offset => ?_,
    fun buffer size offset w => ?_, fun data start step count => ?_,
    fun cs start step count => ?_, fun size offset chunk => ?_, fun size => ?_,
    fun binding offset size => ?_, fun binding offset size => ?_, ?_,
    fun alignment => ?_, fun buffer alignment w => ?_,
    fun data viewport alignment => ?_, fun base ml => ?_, fun loc => ?_,
    fun unit r w level fmt => ?_, ?_⟩ <;>
    simp_all [Buffer.write, Buffer.read, Buffer.read_into, Buffer.write_chunks,
      Buffer.read_chunks, Buffer.clear, Buffer.orphan,
      Buffer.bind_to_uniform_block, Buffer.bind_to_storage_buffer,
      Buffer.release, TextureArray.read, TextureArray.read_into,
      TextureArray.write, TextureArray.build_mipmaps, TextureArray.use,
      TextureArray.bind_to_image, TextureArray.release,
      MglObj.writePrim, MglObj.readArgs, MglObj.writeChunksPrim,
      MglObj.readChunksPrim, MglObj.opPrim, MglObj.isInvalidObject, errs] <;>
    rfl

/-- C5 witness: the theorem applied to the released buffer and texture at
concrete arguments. -/
theorem use_after_release_fails_witness :
    errs (bufReleased.write [1, 2] 0) = true ∧
    errs (bufReleased.read (-1) 0) = true ∧
    errs (bufReleased.orphan (-1)) = true ∧
    errs (texReleased.use 0) = true ∧
    errs (texReleased.write (.bytearray [1]) none 1) = true := by
  have h := use_after_release_fails bufReleased texReleased rfl rfl
  exact ⟨h.1 [1, 2] 0, h.2.1 (-1) 0, h.2.2.2.2.2.2.1 (-1),
    h.2.2.2.2.2.2.2.2.2.2.2.2.2.2.1 0,
    h.2.2.2.2.2.2.2.2.2.2.2.2.1 (.bytearray [1]) none 1⟩

/-- C6: on a concrete live 16-byte buffer, `write_chunks` followed by
`read_chunks` with the matching offset pattern does return the data
reassembled in chunk order, but `read_chunks_into` — which the source
forwards to the driver's plain `read` entry point with six arguments —
fails with `TypeError` instead of performing the chunked read. -/
theorem read_chunks_into_wrong_primitive :
    (Buffer.write_chunks bufLive [1, 2, 3, 4, 5, 6, 7, 8] 0 8 2).bind
        (fun b => b.read_chunks 4 0 8 2) = .ok [1, 2, 3, 4, 5, 6, 7, 8] ∧
    bufLive.read_chunks_into (List.replicate 8 0) 4 0 8 2 0 =
      .error .typeError := by
  exact ⟨rfl, rfl⟩

/-- C7 counterexample: the instance abandoned by the failing public
constructor has its `ctx` slot assigned to Python `None`, so its automatic
teardown is not a silent no-op: the teardown body raises `AttributeError`
when it reads `gc_mode` off `None`. -/
theorem init_abandoned_del_raises :
    (Buffer.init 5).2.del =
      .error (.attributeError "NoneType object has no attribute gc_mode") ∧
    (TextureArray.init 6).2.del =
      .error (.attributeError "NoneType object has no attribute gc_mode") :=
  ⟨rfl, rfl⟩

/-- C7 amended: teardown is a silent no-op exactly for wrappers whose `ctx`
slot was never assigned; the wrapper left behind by the failing public
constructor has `ctx` assigned to `None`, and its teardown raises
`AttributeError` inside the teardown body (which the runtime suppresses)
while still performing no driver call. -/
theorem del_never_constructed (b : Buffer) (t : TextureArray) :
    (b.ctx = .unassigned → b.del = .ok ([], b, .unassigned)) ∧
    (b.ctx = .noneVal →
      b.del = .error (.attributeError "NoneType object has no attribute gc_mode")) ∧
    (Buffer.init b.pyid).2.ctx = .noneVal ∧
    (t.ctx = .unassigned → t.del = .ok ([], t, .unassigned)) ∧
    (t.ctx = .noneVal →
      t.del = .error (.attributeError "NoneType object has no attribute gc_mode")) ∧
    (TextureArray.init t.pyid).2.ctx = .noneVal := by
  refine ⟨fun h => ?_, fun h => ?_, rfl, fun h => ?_, fun h => ?_, rfl⟩ <;>
    simp_all [Buffer.del, TextureArray.del]

/-- C7 amended witness: teardown of a wrapper whose `ctx` slot was never
assigned, and of the constructor-abandoned wrapper, at concrete states. -/
theorem del_never_constructed_witness :
    Buffer.del { bufLive with ctx := .unassigned } =
      .ok ([], { bufLive with ctx := .unassigned }, .unassigned) ∧
    TextureArray.del { texLive with ctx := .noneVal } =
      .error (.attributeError "NoneType object has no attribute gc_mode") := by
  have h := del_never_constructed { bufLive with ctx := .unassigned }
    { texLive with ctx := .noneVal }
  exact ⟨h.1 rfl, h.2.2.2.2.1 rfl⟩

/-- C8: hashing returns the wrapper's own transient object identity
(`id(self)`), not anything derived from the wrapped handle; consequently
there are pairs of distinct wrapper instances that wrap the same handle —
and hence compare equal — whose hashes differ. -/
theorem hash_is_wrapper_identity :
    (∀ b : Buffer, b.hashPy = b.pyid) ∧
    (∀ t : TextureArray, t.hashPy = t.pyid) ∧
    (∃ a b : Buffer, a.eqPy (.buf b) = true ∧ a.hashPy ≠ b.hashPy) ∧
    (∃ a b : TextureArray, a.eqPy (.tex b) = true ∧ a.hashPy ≠ b.hashPy) :=
  ⟨fun _ => rfl, fun _ => rfl,
   ⟨bufLive, { bufLive with pyid := 12 }, rfl, by decide⟩,
   ⟨texLive, { texLive with pyid := 22 }, rfl, by decide⟩⟩

/-- C9: `Buffer.bind` and `Buffer.assign` issue no driver call, leave the
buffer untouched, and return the `(self, layout, *attribs)` tuple and the
`(self, index)` pair respectively. -/
theorem bind_assign_pure (b : Buffer) (attribs : List String)
    (layout : Option String) (index : Int) :
    b.bind attribs layout =
      ([], .bufSelf b :: .layoutVal layout :: attribs.map BindElem.attrib) ∧
    b.assign index = ([], (b, index)) :=
  ⟨rfl, rfl⟩

/-- C10: in "context_gc" mode, teardown appends the wrapper's `mglo` to the
context's queue without checking its validity: even for a wrapper whose
handle is already the `InvalidObject` sentinel, the queue grows by exactly
one and the sentinel itself is what gets appended. -/
theorem context_gc_appends_unconditionally (b : Buffer) (t : TextureArray)
    (c d : Context)
    (hbc : b.ctx = .ctx c) (hcg : c.gc_mode = "context_gc")
    (hbm : b.mglo.kind = .invalid)
    (htc : t.ctx = .ctx d) (hdg : d.gc_mode = "context_gc")
    (htm : t.mglo.kind = .invalid) :
    b.del = .ok ([], b, .ctx { c with objects := c.objects ++ [b.mglo] }) ∧
    b.mglo.isInvalidObject = true ∧
    (c.objects ++ [b.mglo]).length = c.objects.length + 1 ∧
    t.del = .ok ([], t, .ctx { d with objects := d.objects ++ [t.mglo] }) ∧
    t.mglo.isInvalidObject = true ∧
    (d.objects ++ [t.mglo]).length = d.objects.length + 1 := by
  refine ⟨?_, ?_, by simp, ?_, ?_, by simp⟩ <;>
    simp_all [Buffer.del, TextureArray.del, MglObj.isInvalidObject]

/-- C10 witness: teardown of already-released wrappers owned by a
"context_gc" context grows the queue by one with the invalid sentinel. -/
theorem context_gc_appends_unconditionally_witness :
    Buffer.del { bufReleased with ctx := .ctx ctxDeferred } =
      .ok ([], { bufReleased with ctx := .ctx ctxDeferred },
        .ctx { ctxDeferred with objects := [bufReleased.mglo] }) ∧
    TextureArray.del { texReleased with ctx := .ctx ctxDeferred } =
      .ok ([], { texReleased with ctx := .ctx ctxDeferred },
        .ctx { ctxDeferred with objects := [texReleased.mglo] }) := by
  have h := context_gc_appends_unconditionally
    { bufReleased with ctx := .ctx ctxDeferred }
    { texReleased with ctx := .ctx ctxDeferred }
    ctxDeferred ctxDeferred rfl rfl rfl rfl rfl rfl
  exact ⟨h.1, h.2.2.2.1⟩

theorem writeAt_length (s d : Bytes) (off : Nat) (h : off + d.length ≤ s.length) :
    (writeAt s d off).length = s.length := by
  simp [writeAt]
  omega

theorem readAt_writeAt (s d : Bytes) (off : Nat) (h : off + d.length ≤ s.length) :
    readAt (writeAt s d off) off d.length = d := by
  have hoff : off ≤ s.length := le_trans (Nat.le_add_right _ _) h
  unfold readAt writeAt
  rw [List.append_assoc, List.drop_left' (by simp [Nat.min_eq_left hoff]),
    List.take_left' rfl]

theorem readAt_writeAt_above (s d : Bytes) (off n start' : Nat)
    (h1 : off + n ≤ start') (h2 : start' ≤ s.length) :
    readAt (writeAt s d start') off n = readAt s off n := by
  unfold readAt writeAt
  rw [List.append_assoc,
    List.drop_append_of_le_length (by simp; omega),
    List.take_append_of_le_length (by simp; omega),
    List.drop_take, List.take_take, Nat.min_eq_left (by omega)]

theorem writeChunksCore_length (cs step : Nat) (hcs : cs ≤ step) (count : Nat) :
    ∀ (s d : Bytes) (start : Nat), start + count * step ≤ s.length →
      (writeChunksCore s d cs start step count).length = s.length := by
  induction count with
  | zero => intro s d start _; rfl
  | succ k ih =>
    intro s d start h
    have hs : (k + 1) * step = k * step + step := Nat.succ_mul k step
    have hmin : (d.take cs).length ≤ cs := by
      rw [List.length_take]; exact Nat.min_le_left ..
    have hw : start + (d.take cs).length ≤ s.length := by omega
    have hlen := writeAt_length s (d.take cs) start hw
    rw [writeChunksCore,
      ih (writeAt s (d.take cs) start) (d.drop cs) (start + step)
        (by rw [hlen]; omega)]
    exact hlen

theorem readAt_writeChunksCore_above (cs step : Nat) (hcs : cs ≤ step)
    (count : Nat) :
    ∀ (s d : Bytes) (start' off n : Nat),
      off + n ≤ start' → start' + count * step ≤ s.length →
      readAt (writeChunksCore s d cs start' step count) off n =
        readAt s off n := by
  induction count with
  | zero => intros; rfl
  | succ k ih =>
    intro s d start' off n h1 h2
    have hs : (k + 1) * step = k * step + step := Nat.succ_mul k step
    have hmin : (d.take cs).length ≤ cs := by
      rw [List.length_take]; exact Nat.min_le_left ..
    have hw : start' + (d.take cs).length ≤ s.length := by omega
    have hlen := writeAt_length s (d.take cs) start' hw
    rw [writeChunksCore,
      ih (writeAt s (d.take cs) start') (d.drop cs) (start' + step) off n
        (by omega) (by rw [hlen]; omega)]
    exact readAt_writeAt_above s (d.take cs) off n start' h1 (by omega)

theorem readChunksCore_writeChunksCore (cs step : Nat) (hcs : cs ≤ step)
    (count : Nat) :
    ∀ (s d : Bytes) (start : Nat),
      d.length = count * cs → start + count * step ≤ s.length →
      readChunksCore (writeChunksCore s d cs start step count)
        cs start step count = d := by
  induction count with
  | zero =>
    intro s d start hd _
    simp at hd
    simp [readChunksCore, hd]
  | succ k ih =>
    intro s d start hd hb
    have hs : (k + 1) * step = k * step + step := Nat.succ_mul k step
    have hc : (k + 1) * cs = k * cs + cs := Nat.succ_mul k cs
    have hdt : (d.take cs).length = cs := by rw [List.length_take]; omega
    have hw : start + (d.take cs).length ≤ s.length := by omega
    have hlen := writeAt_length s (d.take cs) start hw
    have hdd : (d.drop cs).length = k * cs := by rw [List.length_drop]; omega
    rw [writeChunksCore, readChunksCore]
    have h1 : readAt
        (writeChunksCore (writeAt s (d.take cs) start) (d.drop cs) cs
          (start + step) step k) start cs = d.take cs := by
      rw [readAt_writeChunksCore_above cs step hcs k _ _ _ _ _ (by omega)
        (by rw [hlen]; omega)]
      have h2 := readAt_writeAt s (d.take cs) start hw
      rwa [hdt] at h2
    rw [h1, ih (writeAt s (d.take cs) start) (d.drop cs) (start + step) hdd
      (by rw [hlen]; omega)]
    exact List.take_append_drop cs d

/-- Chunked writes followed by the matching chunked read round-trip on any
live buffer: with `count` dividing the data length, non-overlapping chunks
and all chunks in range, `write_chunks(data, start, step, count)` then
`read_chunks(len(data)/count, start, step, count)` returns `data`
reassembled in the same chunk order. -/
theorem buffer_write_read_chunks_roundtrip (b : Buffer) (glo : Nat)
    (store data : Bytes) (start step count : Nat)
    (hm : b.mglo.kind = .handle glo store)
    (hdvd : count ∣ data.length)
    (hcs : data.length / count ≤ step)
    (hb : start + count * step ≤ store.length) :
    (b.write_chunks data start step count).bind
      (fun b2 => b2.read_chunks (data.length / count) start step count) =
      .ok data := by
  have hmul : count * (data.length / count) = data.length :=
    Nat.mul_div_cancel' hdvd
  have hlinear : count = 0 ∨ (count - 1) * step + step = count * step := by
    cases count with
    | zero => exact Or.inl rfl
    | succ k => right; simp [Nat.succ_mul, Nat.succ_sub_one]
  have hcond : count ∣ data.length ∧
      (count = 0 ∨
        start + (count - 1) * step + data.length / count ≤ store.length) := by
    refine ⟨hdvd, ?_⟩
    rcases hlinear with h0 | hlin
    · exact Or.inl h0
    · exact Or.inr (by omega)
  have hS := writeChunksCore_length (data.length / count) step hcs count store
    data start hb
  have hcond2 : count = 0 ∨
      start + (count - 1) * step + data.length / count ≤
        (writeChunksCore store data (data.length / count) start step
          count).length := by
    rcases hlinear with h0 | hlin
    · exact Or.inl h0
    · exact Or.inr (by rw [hS]; omega)
  have hwp : b.write_chunks data start step count =
      .ok { b with mglo := { b.mglo with
        kind := .handle glo
          (writeChunksCore store data (data.length / count) start step count) } } := by
    simp only [Buffer.write_chunks, MglObj.writeChunksPrim, hm, if_pos hcond]
    rfl
  rw [hwp]
  show Buffer.read_chunks _ (data.length / count) start step count = _
  simp only [Buffer.read_chunks, MglObj.readChunksPrim]
  rw [if_pos hcond2]
  exact congrArg Except.ok
    (readChunksCore_writeChunksCore (data.length / count) step hcs count store
      data start hmul.symm hb)

/-- Witness for the chunk round-trip at a concrete buffer and data. -/
theorem buffer_write_read_chunks_roundtrip_witness :
    (bufLive.write_chunks [1, 2, 3, 4, 5, 6, 7, 8] 0 8 2).bind
      (fun b2 => b2.read_chunks 4 0 8 2) = .ok [1, 2, 3, 4, 5, 6, 7, 8] :=
  buffer_write_read_chunks_roundtrip bufLive 7 (List.replicate 16 0)
    [1, 2, 3, 4, 5, 6, 7, 8] 0 8 2 rfl (by decide) (by decide) (by decide)
